import Mathlib

/-!
Shallow embedding of the anomaly-detection core of the IIoT-MQTT repository.

The numeric type of the Python code (float) is idealised as `ℚ`; the square
root inside `statistics.stdev` is the only non-rational operation, so every
function that needs it takes an abstract `sq : ℚ → ℚ` argument standing for
"the square root of the sample variance as the library computes it".  All
claims proved below hold for every such `sq`; counterexamples instantiate it
concretely at inputs whose variance is zero, where the true square root is 0.

Python's `round(x, 3)` is modelled as rounding `1000*x` to the nearest
integer; `try/except` blocks are modelled by returning the state reached at
the raising operation (`statistics.mean` raises on an empty list,
`statistics.stdev` raises on fewer than two points, `list.pop(0)` raises on
an empty list), with every field assignment executed before that point kept.
-/

namespace IIoTMQTT

/-- Python `round(x, 3)` over `ℚ`: round `1000*x` to the nearest integer and
divide by `1000`. -/
def round3 (q : ℚ) : ℚ := (round (1000 * q) : ℤ) / 1000

/-- `statistics.mean` over `ℚ` (the empty-list case is guarded at every use
site, mirroring the `StatisticsError` the library raises there). -/
def meanQ (l : List ℚ) : ℚ := l.sum / (l.length : ℚ)

/-- The sample variance (the square of `statistics.stdev`, `n − 1`
denominator); the fewer-than-two-points case is guarded at every use site. -/
def svarQ (l : List ℚ) : ℚ :=
  ((l.map (fun x => (x - meanQ l) ^ 2)).sum) / ((l.length : ℚ) - 1)

/-- The last `n` elements of a list (what a bounded FIFO window retains). -/
def lastN (n : ℕ) (l : List ℚ) : List ℚ := l.drop (l.length - n)

/-- State of `AnomalyDetection3StdDev`
(`src/electrical_anomaly_analytics/src/helper.py`). -/
structure State3 where
  model_data : List ℚ
  model_size : ℕ
  anomaly_list : List ℤ
  anomaly_list_size : ℕ
  anomaly_ratio : ℚ
  anomaly : ℤ
  model_avg : ℚ
  model_std_dev : ℚ
  thresh_std_dev_limit : ℚ
  u_thresh : ℚ
  l_thresh : ℚ
deriving Repr, DecidableEq

/-- `AnomalyDetection3StdDev.__init__`. -/
def init3 (model_size anomaly_list_size : ℕ) (thresh_std_dev_limit : ℚ) : State3 :=
  { model_data := []
    model_size := model_size
    anomaly_list := []
    anomaly_list_size := anomaly_list_size
    anomaly_ratio := 0
    anomaly := 0
    model_avg := 0
    model_std_dev := 0
    thresh_std_dev_limit := thresh_std_dev_limit
    u_thresh := 0
    l_thresh := 0 }

/-- `AnomalyDetection3StdDev.is_model_complete`. -/
def is_model_complete3 (s : State3) : Bool :=
  s.model_data.length == s.model_size

/-- `AnomalyDetection3StdDev.reset_algorithm`. -/
def reset_algorithm3 (s : State3) : State3 :=
  { s with model_data := []
           anomaly_list := []
           anomaly_ratio := 0
           anomaly := 0
           model_avg := 0
           model_std_dev := 0 }

/-- `AnomalyDetection3StdDev.check_if_anomaly`.  `sq` abstracts the square
root taken inside `statistics.stdev`.  The two early-return states model the
`except` clause catching `StatisticsError`: on an empty window `mean` raises
before any assignment, and on a one-point window `stdev` raises after
`model_avg` has already been assigned. -/
def check_if_anomaly3 (sq : ℚ → ℚ) (s : State3) (value : ℚ) (limit : ℚ) : State3 :=
  if s.model_data.length = s.model_size then
    if s.model_data.length = 0 then s
    else
      let s1 := { s with model_avg := meanQ s.model_data }
      if s.model_data.length < 2 then s1
      else
        let sd := sq (svarQ s.model_data)
        let s2 := { s1 with model_std_dev := sd }
        let s3 :=
          if sd < limit ∧ 0 < limit then
            { s2 with u_thresh := s2.model_avg + s.thresh_std_dev_limit
                      l_thresh := s2.model_avg - s.thresh_std_dev_limit }
          else
            { s2 with u_thresh := s2.model_avg + 3 * sd
                      l_thresh := s2.model_avg - 3 * sd }
        if s3.l_thresh ≤ value ∧ value ≤ s3.u_thresh then
          { s3 with model_data := s3.model_data.tail ++ [value]
                    anomaly := 0 }
        else
          { s3 with anomaly := 1 }
  else
    { s with model_data := s.model_data ++ [value] }

/-- `AnomalyDetection3StdDev.calculate_anomaly_ratio`.  The early return in
the full-but-empty-list branch models `pop(0)` raising on an empty list with
the `except` clause catching it. -/
def calculate_anomaly_ratio3 (s : State3) : State3 :=
  if s.model_data.length = s.model_size then
    if s.anomaly_list.length < s.anomaly_list_size then
      { s with anomaly_list := s.anomaly_list ++ [s.anomaly] }
    else if s.anomaly_list.length = 0 then s
    else
      let l := s.anomaly_list.tail ++ [s.anomaly]
      { s with anomaly_list := l
               anomaly_ratio := round3 ((l.sum : ℚ) / (s.anomaly_list_size : ℚ)) }
  else s

/-- State of `AnomalyDetectionZscore`
(`src/vibration_anomaly_detect_z_score/src/script.py`). -/
structure StateZ where
  model_data : List ℚ
  model_size : ℕ
  anomaly_list : List ℤ
  anomaly_list_size : ℕ
  anomaly_ratio : ℚ
  anomaly : ℤ
  model_avg : ℚ
  model_std_dev : ℚ
  z_score : ℚ
  z_score_thresh : ℚ
deriving Repr, DecidableEq

/-- `AnomalyDetectionZscore.__init__`. -/
def initZ (model_size anomaly_list_size : ℕ) : StateZ :=
  { model_data := []
    model_size := model_size
    anomaly_list := []
    anomaly_list_size := anomaly_list_size
    anomaly_ratio := 0
    anomaly := 0
    model_avg := 0
    model_std_dev := 0
    z_score := 0
    z_score_thresh := 0 }

/-- The `z_score_thresh` property setter of `AnomalyDetectionZscore`. -/
def set_z_score_thresh (s : StateZ) (z_score_threshold : ℚ) : StateZ :=
  if z_score_threshold = 0 then { s with z_score_thresh := 2 }
  else { s with z_score_thresh := z_score_threshold }

/-- `AnomalyDetectionZscore.is_model_complete`. -/
def is_model_completeZ (s : StateZ) : Bool :=
  s.model_data.length == s.model_size

/-- `AnomalyDetectionZscore.reset_algorithm`. -/
def reset_algorithmZ (s : StateZ) : StateZ :=
  { s with model_data := []
           anomaly_list := []
           anomaly_ratio := 0
           anomaly := 0
           model_avg := 0
           model_std_dev := 0
           z_score := 0 }

/-- `AnomalyDetectionZscore.check_if_anomaly`.  Same `except` modelling as
`check_if_anomaly3`; `model_avg` is `round(abs(mean(...)), 3)`, `model_std_dev`
is `abs(stdev(...))` with `0` replaced by `0.001`. -/
def check_if_anomalyZ (sq : ℚ → ℚ) (s : StateZ) (value : ℚ) : StateZ :=
  if s.model_data.length = s.model_size then
    if s.model_data.length = 0 then s
    else
      let s1 := { s with model_avg := round3 |meanQ s.model_data| }
      if s.model_data.length < 2 then s1
      else
        let sd0 := |sq (svarQ s.model_data)|
        let sd := if sd0 = 0 then 1 / 1000 else sd0
        let z := round3 ((|value| - s1.model_avg) / sd)
        let s2 := { s1 with model_std_dev := sd
                            z_score := z }
        if s.z_score_thresh < |z| then
          { s2 with anomaly := 1 }
        else
          { s2 with model_data := s2.model_data.tail ++ [value]
                    anomaly := 0 }
  else
    { s with model_data := s.model_data ++ [value] }

/-- `AnomalyDetectionZscore.calculate_anomaly_ratio` (same structure as the
3-std-dev variant). -/
def calculate_anomaly_ratioZ (s : StateZ) : StateZ :=
  if s.model_data.length = s.model_size then
    if s.anomaly_list.length < s.anomaly_list_size then
      { s with anomaly_list := s.anomaly_list ++ [s.anomaly] }
    else if s.anomaly_list.length = 0 then s
    else
      let l := s.anomaly_list.tail ++ [s.anomaly]
      { s with anomaly_list := l
               anomaly_ratio := round3 ((l.sum : ℚ) / (s.anomaly_list_size : ℚ)) }
  else s

/-- Whether `check_if_anomaly3` accepts `value` into the window: always while
the model is still building, and exactly when the value lies inside the
computed band once the model is complete (the spec's "accepted
(non-anomalous) value"). -/
def accepts3 (sq : ℚ → ℚ) (limit : ℚ) (s : State3) (value : ℚ) : Bool :=
  if s.model_data.length = s.model_size then
    if s.model_data.length < 2 then false
    else
      let avg := meanQ s.model_data
      let sd := sq (svarQ s.model_data)
      let u := if sd < limit ∧ 0 < limit then avg + s.thresh_std_dev_limit
               else avg + 3 * sd
      let lo := if sd < limit ∧ 0 < limit then avg - s.thresh_std_dev_limit
                else avg - 3 * sd
      decide (lo ≤ value ∧ value ≤ u)
  else true

/-- Iterated `check_if_anomaly3` over a list of incoming values. -/
def run3 (sq : ℚ → ℚ) (limit : ℚ) : State3 → List ℚ → State3
  | s, [] => s
  | s, v :: vs => run3 sq limit (check_if_anomaly3 sq s v limit) vs

/-- The subsequence of a list of incoming values that `check_if_anomaly3`
accepts into the window along the run. -/
def accepted3 (sq : ℚ → ℚ) (limit : ℚ) : State3 → List ℚ → List ℚ
  | _, [] => []
  | s, v :: vs =>
      (if accepts3 sq limit s v then [v] else [])
        ++ accepted3 sq limit (check_if_anomaly3 sq s v limit) vs

/-- Whether `check_if_anomalyZ` accepts `value` into the window. -/
def acceptsZ (sq : ℚ → ℚ) (s : StateZ) (value : ℚ) : Bool :=
  if s.model_data.length = s.model_size then
    if s.model_data.length < 2 then false
    else
      let avg := round3 |meanQ s.model_data|
      let sd0 := |sq (svarQ s.model_data)|
      let sd := if sd0 = 0 then 1 / 1000 else sd0
      let z := round3 ((|value| - avg) / sd)
      decide (¬ s.z_score_thresh < |z|)
  else true

/-- Iterated `check_if_anomalyZ` over a list of incoming values. -/
def runZ (sq : ℚ → ℚ) : StateZ → List ℚ → StateZ
  | s, [] => s
  | s, v :: vs => runZ sq (check_if_anomalyZ sq s v) vs

/-- The subsequence of a list of incoming values that `check_if_anomalyZ`
accepts into the window along the run. -/
def acceptedZ (sq : ℚ → ℚ) : StateZ → List ℚ → List ℚ
  | _, [] => []
  | s, v :: vs =>
      (if acceptsZ sq s v then [v] else [])
        ++ acceptedZ sq (check_if_anomalyZ sq s v) vs

/-- One message cycle of the vibration script: assign `z_score_thresh`, run
`check_if_anomaly`, then `calculate_anomaly_ratio` (`on_message`,
`src/vibration_anomaly_detect_z_score/src/script.py`). -/
def proc_messageZ (sq : ℚ → ℚ) (t : ℚ) (s : StateZ) (value : ℚ) : StateZ :=
  calculate_anomaly_ratioZ (check_if_anomalyZ sq (set_z_score_thresh s t) value)

/-- Iterated message cycles of the vibration script. -/
def run_procZ (sq : ℚ → ℚ) (t : ℚ) : StateZ → List ℚ → StateZ
  | s, [] => s
  | s, v :: vs => run_procZ sq t (proc_messageZ sq t s v) vs

/-- One evaluation cycle of the 3-std-dev detector as its callers drive it:
`check_if_anomaly` followed by `calculate_anomaly_ratio`. -/
def proc_message3 (sq : ℚ → ℚ) (limit : ℚ) (s : State3) (value : ℚ) : State3 :=
  calculate_anomaly_ratio3 (check_if_anomaly3 sq s value limit)

/-- Iterated evaluation cycles of the 3-std-dev detector. -/
def run_proc3 (sq : ℚ → ℚ) (limit : ℚ) : State3 → List ℚ → State3
  | s, [] => s
  | s, v :: vs => run_proc3 sq limit (proc_message3 sq limit s v) vs

/-- The per-phase inrush-peak selection of `calculate_inrush_current_analytics`
(`src/electrical_anomaly_analytics_zscore/src/script.py`): the sample at the
`peak_number`-th (1-indexed) peak index when the guard
`len(peaks) > 0 and peak_number <= len(peaks)` holds, nothing otherwise. -/
def inrush_current_sample (samples : List ℚ) (peaks : List ℕ)
    (peak_number : ℕ) : Option ℚ :=
  if 0 < peaks.length ∧ peak_number ≤ peaks.length then
    (peaks.get? (peak_number - 1)).bind (fun i => samples.get? i)
  else none

/-- The returned triple of `calculate_inrush_current_analytics`: the three
selected inrush samples when each phase found enough peaks; when any phase's
guard failed, the `return` raises `NameError` on the unbound local and the
`except` clause reports no peak found (`return False, False, False`),
modelled as `none`. -/
def calculate_inrush_current_analytics (samples1 samples2 samples3 : List ℚ)
    (peaks1 peaks2 peaks3 : List ℕ) (peak_number : ℕ) : Option (ℚ × ℚ × ℚ) :=
  match inrush_current_sample samples1 peaks1 peak_number,
        inrush_current_sample samples2 peaks2 peak_number,
        inrush_current_sample samples3 peaks3 peak_number with
  | some a, some b, some c => some (a, b, c)
  | _, _, _ => none

/-! ### Concrete instances used by counterexamples and witnesses -/

/-- A concrete stand-in for the square root inside `statistics.stdev`; all
concrete windows below have sample variance `0`, where the true square root
is also `0`. -/
def sqZero : ℚ → ℚ := fun _ => 0

/-- A complete two-point z-score detector state whose window holds `-1` and
`1` (mean `0`, mean of magnitudes `1`). -/
def zStateMix : StateZ :=
  { model_data := [-1, 1]
    model_size := 2
    anomaly_list := []
    anomaly_list_size := 3
    anomaly_ratio := 0
    anomaly := 0
    model_avg := 0
    model_std_dev := 0
    z_score := 0
    z_score_thresh := 10 }

/-- A complete four-point 3-std-dev detector state with a constant window and
a configured `thresh_std_dev_limit` of `2`. -/
def sFlat : State3 :=
  { model_data := [0, 0, 0, 0]
    model_size := 4
    anomaly_list := []
    anomaly_list_size := 3
    anomaly_ratio := 0
    anomaly := 0
    model_avg := 0
    model_std_dev := 0
    thresh_std_dev_limit := 2
    u_thresh := 0
    l_thresh := 0 }

/-- A complete one-point 3-std-dev detector state (`model_size = 1`), where
`statistics.stdev` raises after `statistics.mean` already succeeded. -/
def sOne : State3 :=
  { model_data := [7]
    model_size := 1
    anomaly_list := []
    anomaly_list_size := 3
    anomaly_ratio := 0
    anomaly := 0
    model_avg := 0
    model_std_dev := 0
    thresh_std_dev_limit := 2
    u_thresh := 0
    l_thresh := 0 }

/-! ### Branch characterisations of the two evaluation functions -/

theorem check3_build (sq : ℚ → ℚ) (s : State3) (v limit : ℚ)
    (h : s.model_data.length ≠ s.model_size) :
    check_if_anomaly3 sq s v limit = { s with model_data := s.model_data ++ [v] } := by
  unfold check_if_anomaly3
  rw [if_neg h]

theorem check3_complete (sq : ℚ → ℚ) (s : State3) (v limit : ℚ)
    (h1 : s.model_data.length = s.model_size) (h2 : 2 ≤ s.model_data.length) :
    check_if_anomaly3 sq s v limit =
      (let avg := meanQ s.model_data
       let sd := sq (svarQ s.model_data)
       let s3 :=
         if sd < limit ∧ 0 < limit then
           { s with model_avg := avg
                    model_std_dev := sd
                    u_thresh := avg + s.thresh_std_dev_limit
                    l_thresh := avg - s.thresh_std_dev_limit }
         else
           { s with model_avg := avg
                    model_std_dev := sd
                    u_thresh := avg + 3 * sd
                    l_thresh := avg - 3 * sd }
       if s3.l_thresh ≤ v ∧ v ≤ s3.u_thresh then
         { s3 with model_data := s3.model_data.tail ++ [v]
                   anomaly := 0 }
       else
         { s3 with anomaly := 1 }) := by
  unfold check_if_anomaly3
  rw [if_pos h1, if_neg (by omega : ¬ s.model_data.length = 0)]
  simp only [if_neg (by omega : ¬ s.model_data.length < 2)]

theorem checkZ_build (sq : ℚ → ℚ) (s : StateZ) (v : ℚ)
    (h : s.model_data.length ≠ s.model_size) :
    check_if_anomalyZ sq s v = { s with model_data := s.model_data ++ [v] } := by
  unfold check_if_anomalyZ
  rw [if_neg h]

theorem checkZ_complete (sq : ℚ → ℚ) (s : StateZ) (v : ℚ)
    (h1 : s.model_data.length = s.model_size) (h2 : 2 ≤ s.model_data.length) :
    check_if_anomalyZ sq s v =
      (let avg := round3 |meanQ s.model_data|
       let sd0 := |sq (svarQ s.model_data)|
       let sd := if sd0 = 0 then 1 / 1000 else sd0
       let z := round3 ((|v| - avg) / sd)
       if s.z_score_thresh < |z| then
         { s with model_avg := avg
                  model_std_dev := sd
                  z_score := z
                  anomaly := 1 }
       else
         { s with model_avg := avg
                  model_std_dev := sd
                  z_score := z
                  model_data := s.model_data.tail ++ [v]
                  anomaly := 0 }) := by
  unfold check_if_anomalyZ
  rw [if_pos h1, if_neg (by omega : ¬ s.model_data.length = 0)]
  simp only [if_neg (by omega : ¬ s.model_data.length < 2)]

/-! ### C1 -/

/-- C1 (counterexample): on the complete window `[-1, 1]` (`model_size = 2 > 1`)
the value stored in `model_avg` by `AnomalyDetectionZscore.check_if_anomaly`
is `round(abs(mean(window)), 3) = 0`, not the claimed mean of absolute values
`round3 (mean |x|) = 1`. -/
theorem c1_counterexample :
    zStateMix.model_data.length = zStateMix.model_size ∧
    1 < zStateMix.model_size ∧
    (check_if_anomalyZ sqZero zStateMix 0).model_avg ≠
      round3 (meanQ (zStateMix.model_data.map (fun x => |x|))) := by
  refine ⟨rfl, by norm_num [zStateMix], ?_⟩
  norm_num [check_if_anomalyZ, zStateMix, sqZero, meanQ, svarQ, round3]

/-- C1 (amended): for every complete model (`len(model_data) == model_size > 1`),
`AnomalyDetectionZscore.check_if_anomaly` stores in `model_avg` the absolute
value of the mean of the windowed observations, rounded to 3 decimals:
`model_avg = round(|mean(model_data)|, 3)`. -/
theorem c1_model_avg_is_abs_of_mean (sq : ℚ → ℚ) (s : StateZ) (v : ℚ)
    (h1 : s.model_data.length = s.model_size) (h2 : 1 < s.model_size) :
    (check_if_anomalyZ sq s v).model_avg = round3 |meanQ s.model_data| := by
  rw [checkZ_complete sq s v h1 (by omega)]
  dsimp only
  split <;> split <;> rfl

/-- C1 witness: the amended statement evaluated on the concrete complete
window `[-1, 1]`. -/
theorem c1_model_avg_is_abs_of_mean_witness :
    (check_if_anomalyZ sqZero zStateMix 5).model_avg = 0 := by
  have h := c1_model_avg_is_abs_of_mean sqZero zStateMix 5 rfl (by norm_num [zStateMix])
  rw [h]
  norm_num [zStateMix, meanQ, round3]

/-! ### C2 -/

/-- C2 (counterexample): on the complete window `[0, 0, 0, 0]` with
`thresh_std_dev_limit = 2`, calling `check_if_anomaly` with `limit = 5` and
recomputed `std_dev = 0 < 5` produces `u_thresh = mean + 2`, not the claimed
`mean + floor_limit = mean + 5`: the bound offset is the constructor's
`thresh_std_dev_limit`, not the call's `limit`. -/
theorem c2_counterexample :
    (0 : ℚ) < 5 ∧
    sqZero (svarQ sFlat.model_data) < 5 ∧
    (check_if_anomaly3 sqZero sFlat 0 5).u_thresh ≠ meanQ sFlat.model_data + 5 := by
  refine ⟨by norm_num, by norm_num [sqZero], ?_⟩
  norm_num [check_if_anomaly3, sFlat, sqZero, meanQ, svarQ]

/-- C2 (amended): in `AnomalyDetection3StdDev.check_if_anomaly` with a
complete model of at least two points, whenever the call's `limit` is `> 0`
and the recomputed `std_dev` is `< limit`, the bounds are
`upper = mean + thresh_std_dev_limit` and `lower = mean - thresh_std_dev_limit`
(the floor configured at construction, which equals the claimed `mean ± 5`
exactly when `thresh_std_dev_limit = 5`); otherwise `upper = mean + 3*std_dev`
and `lower = mean - 3*std_dev`. -/
theorem c2_floor_bounds (sq : ℚ → ℚ) (s : State3) (v limit : ℚ)
    (h1 : s.model_data.length = s.model_size) (h2 : 2 ≤ s.model_data.length) :
    ((sq (svarQ s.model_data) < limit ∧ 0 < limit) →
      (check_if_anomaly3 sq s v limit).u_thresh
          = meanQ s.model_data + s.thresh_std_dev_limit ∧
      (check_if_anomaly3 sq s v limit).l_thresh
          = meanQ s.model_data - s.thresh_std_dev_limit) ∧
    (¬ (sq (svarQ s.model_data) < limit ∧ 0 < limit) →
      (check_if_anomaly3 sq s v limit).u_thresh
          = meanQ s.model_data + 3 * sq (svarQ s.model_data) ∧
      (check_if_anomaly3 sq s v limit).l_thresh
          = meanQ s.model_data - 3 * sq (svarQ s.model_data)) := by
  rw [check3_complete sq s v limit h1 h2]
  constructor <;> intro hc
  · simp only [if_pos hc]
    split <;> exact ⟨rfl, rfl⟩
  · simp only [if_neg hc]
    split <;> exact ⟨rfl, rfl⟩

/-- C2 witness: on the concrete state `sFlat` (window `[0,0,0,0]`, floor `2`)
with `limit = 5` the floor engages and the bounds are `0 ± 2`. -/
theorem c2_floor_bounds_witness :
    (check_if_anomaly3 sqZero sFlat 0 5).u_thresh = 2 ∧
    (check_if_anomaly3 sqZero sFlat 0 5).l_thresh = -2 := by
  have h := (c2_floor_bounds sqZero sFlat 0 5 rfl (by norm_num [sFlat])).1
    ⟨by norm_num [sqZero], by norm_num⟩
  rw [h.1, h.2]
  constructor <;> norm_num [sFlat, meanQ]

/-! ### C3 -/

/-- C3 (counterexample): from the reachable state `sOne` (`model_size = 1`,
window `[7]`, `model_avg = 0`) an arithmetic failure occurs
(`statistics.stdev` raises on one point), yet `model_avg` is `7` after the
call because `statistics.mean` already succeeded and was assigned — the state
is not left unchanged. -/
theorem c3_counterexample :
    sOne.model_data.length = sOne.model_size ∧
    sOne.model_data.length < 2 ∧
    (check_if_anomaly3 sqZero sOne 3 0).model_avg ≠ sOne.model_avg := by
  refine ⟨rfl, by norm_num [sOne], ?_⟩
  norm_num [check_if_anomaly3, sOne, meanQ]

/-- C3 (amended): when an arithmetic failure occurs inside
`AnomalyDetection3StdDev.check_if_anomaly` (the model is complete with fewer
than two points, so `statistics` raises), the exception is caught and
`model_data`, `model_std_dev`, `u_thresh`, `l_thresh`, `anomaly`,
`anomaly_ratio` and `anomaly_list` keep their prior values; `model_avg` is
unchanged when the window is empty (`mean` raises first) but is overwritten
with `mean(model_data)` when the window holds exactly one point (`mean`
succeeds before `stdev` raises). -/
theorem c3_failure_keeps_state (sq : ℚ → ℚ) (s : State3) (v limit : ℚ)
    (h1 : s.model_data.length = s.model_size) (h2 : s.model_data.length < 2) :
    (check_if_anomaly3 sq s v limit).model_data = s.model_data ∧
    (check_if_anomaly3 sq s v limit).model_std_dev = s.model_std_dev ∧
    (check_if_anomaly3 sq s v limit).u_thresh = s.u_thresh ∧
    (check_if_anomaly3 sq s v limit).l_thresh = s.l_thresh ∧
    (check_if_anomaly3 sq s v limit).anomaly = s.anomaly ∧
    (check_if_anomaly3 sq s v limit).anomaly_ratio = s.anomaly_ratio ∧
    (check_if_anomaly3 sq s v limit).anomaly_list = s.anomaly_list ∧
    (s.model_data.length = 0 →
      (check_if_anomaly3 sq s v limit).model_avg = s.model_avg) ∧
    (s.model_data.length = 1 →
      (check_if_anomaly3 sq s v limit).model_avg = meanQ s.model_data) := by
  unfold check_if_anomaly3
  rw [if_pos h1]
  by_cases h0 : s.model_data.length = 0
  · rw [if_pos h0]
    exact ⟨rfl, rfl, rfl, rfl, rfl, rfl, rfl, fun _ => rfl, fun h => by omega⟩
  · rw [if_neg h0]
    dsimp only
    rw [if_pos h2]
    exact ⟨rfl, rfl, rfl, rfl, rfl, rfl, rfl, fun h => absurd h h0, fun _ => rfl⟩

/-- C3 witness: the amended statement evaluated on the concrete one-point
state `sOne`. -/
theorem c3_failure_keeps_state_witness :
    (check_if_anomaly3 sqZero sOne 3 0).model_data = [7] ∧
    (check_if_anomaly3 sqZero sOne 3 0).anomaly = 0 ∧
    (check_if_anomaly3 sqZero sOne 3 0).model_avg = 7 := by
  have h := c3_failure_keeps_state sqZero sOne 3 0 rfl (by norm_num [sOne])
  refine ⟨h.1, h.2.2.2.2.1, ?_⟩
  rw [h.2.2.2.2.2.2.2.2 rfl]
  norm_num [sOne, meanQ]

/-! ### C4 -/

/-- C4 (counterexample): assigning `-1` to `z_score_thresh` stores `-1`, so
the stored threshold is not `> 0` after every assignment. -/
theorem c4_counterexample :
    ¬ (0 < (set_z_score_thresh (initZ 5 5) (-1)).z_score_thresh) := by
  norm_num [set_z_score_thresh, initZ]

/-- C4 (amended): the `z_score_thresh` setter replaces a configured `0` by
the documented default `2.0` without raising, and stores every other value
`t` unchanged; hence the stored threshold is always nonzero (but a negative
`t` is stored as-is, so it is not always `> 0`). -/
theorem c4_thresh_setter (s : StateZ) (t : ℚ) :
    (t = 0 → (set_z_score_thresh s t).z_score_thresh = 2) ∧
    (t ≠ 0 → (set_z_score_thresh s t).z_score_thresh = t) ∧
    (set_z_score_thresh s t).z_score_thresh ≠ 0 := by
  unfold set_z_score_thresh
  by_cases h : t = 0 <;> simp [h]

/-- C4 witness: assigning `0` on a concrete state stores the default `2`,
which is nonzero. -/
theorem c4_thresh_setter_witness :
    (set_z_score_thresh (initZ 5 5) 0).z_score_thresh = 2 ∧
    (set_z_score_thresh (initZ 5 5) 0).z_score_thresh ≠ 0 :=
  ⟨(c4_thresh_setter (initZ 5 5) 0).1 rfl, (c4_thresh_setter (initZ 5 5) 0).2.2⟩

/-! ### C8 -/

/-- C8: for every complete model state, `AnomalyDetectionZscore.check_if_anomaly`
on `value` and on `-value` from the same starting state produces the same
`z_score` and the same `anomaly` flag (the policy only looks at `|value|`). -/
theorem c8_sign_insensitive (sq : ℚ → ℚ) (s : StateZ) (v : ℚ)
    (h1 : s.model_data.length = s.model_size) :
    (check_if_anomalyZ sq s v).z_score = (check_if_anomalyZ sq s (-v)).z_score ∧
    (check_if_anomalyZ sq s v).anomaly = (check_if_anomalyZ sq s (-v)).anomaly := by
  by_cases h2 : 2 ≤ s.model_data.length
  · rw [checkZ_complete sq s v h1 h2, checkZ_complete sq s (-v) h1 h2]
    dsimp only
    rw [abs_neg]
    constructor
    · simp only [apply_ite StateZ.z_score, ite_self]
    · simp only [apply_ite StateZ.anomaly]
  · unfold check_if_anomalyZ
    rw [if_pos h1, if_pos h1]
    by_cases h0 : s.model_data.length = 0
    · rw [if_pos h0, if_pos h0]
      exact ⟨rfl, rfl⟩
    · rw [if_neg h0, if_neg h0]
      dsimp only
      rw [if_pos (by omega : s.model_data.length < 2),
          if_pos (by omega : s.model_data.length < 2)]
      exact ⟨rfl, rfl⟩

/-- C8 witness: evaluated at `5` and `-5` on the concrete complete state
`zStateMix`. -/
theorem c8_sign_insensitive_witness :
    (check_if_anomalyZ sqZero zStateMix 5).z_score
      = (check_if_anomalyZ sqZero zStateMix (-5)).z_score ∧
    (check_if_anomalyZ sqZero zStateMix 5).anomaly
      = (check_if_anomalyZ sqZero zStateMix (-5)).anomaly :=
  c8_sign_insensitive sqZero zStateMix 5 rfl

/-! ### C9 -/

/-- C9: for each phase, given the peak indices found above the height
threshold, `calculate_inrush_current_analytics` selects the sample at the
`peak_number`-th (1-indexed) peak index in arrival order when at least
`peak_number` peaks exist; with fewer peaks that phase selects nothing and
the function totalises to "no peak found" (`none`) instead of an
exception. -/
theorem c9_inrush_selection (samples : List ℚ) (peaks : List ℕ)
    (peak_number i : ℕ) (h1 : 1 ≤ peak_number) :
    (peaks.get? (peak_number - 1) = some i →
      inrush_current_sample samples peaks peak_number = samples.get? i) ∧
    (peaks.length < peak_number →
      inrush_current_sample samples peaks peak_number = none ∧
      ∀ s2 s3 p2 p3, calculate_inrush_current_analytics samples s2 s3
          peaks p2 p3 peak_number = none) := by
  constructor
  · intro hget
    have hlt : peak_number - 1 < peaks.length := List.get?_eq_some.mp hget |>.1
    unfold inrush_current_sample
    rw [if_pos ⟨by omega, by omega⟩, hget]
    rfl
  · intro hfew
    have hnone : inrush_current_sample samples peaks peak_number = none := by
      unfold inrush_current_sample
      rw [if_neg]
      intro hc
      omega
    refine ⟨hnone, fun s2 s3 p2 p3 => ?_⟩
    unfold calculate_inrush_current_analytics
    rw [hnone]

/-- C9 witness: peaks at indices `[3, 9, 15]` with `peak_number = 2` select
the sample at index 9 (here `90`); `peak_number = 4` selects nothing and the
whole function reports no peak found. -/
theorem c9_inrush_selection_witness :
    inrush_current_sample [1, 2, 3, 10, 4, 5, 6, 7, 8, 90, 9, 10, 11, 12, 13, 70, 14]
        [3, 9, 15] 2 = some 90 ∧
    inrush_current_sample [1, 2, 3, 10, 4, 5, 6, 7, 8, 90, 9, 10, 11, 12, 13, 70, 14]
        [3, 9, 15] 4 = none ∧
    calculate_inrush_current_analytics
        [1, 2, 3, 10, 4, 5, 6, 7, 8, 90, 9, 10, 11, 12, 13, 70, 14] [] []
        [3, 9, 15] [] [] 4 = none := by
  have h2 := (c9_inrush_selection
    [1, 2, 3, 10, 4, 5, 6, 7, 8, 90, 9, 10, 11, 12, 13, 70, 14]
    [3, 9, 15] 2 9 (by norm_num)).1 rfl
  have h4 := (c9_inrush_selection
    [1, 2, 3, 10, 4, 5, 6, 7, 8, 90, 9, 10, 11, 12, 13, 70, 14]
    [3, 9, 15] 4 0 (by norm_num)).2 (by norm_num)
  exact ⟨by rw [h2]; rfl, h4.1, h4.2 [] [] [] []⟩

/-! ### C10 -/

/-- C10: `reset_algorithm` empties `model_data` and `anomaly_list` and zeroes
`anomaly_ratio`, `anomaly`, `model_avg` and `model_std_dev`, but leaves the
threshold fields (`u_thresh`/`l_thresh` in `AnomalyDetection3StdDev`,
`z_score_thresh` in `AnomalyDetectionZscore`) unchanged. -/
theorem c10_reset_keeps_thresholds (s3 : State3) (sZ : StateZ) :
    (reset_algorithm3 s3).model_data = [] ∧
    (reset_algorithm3 s3).anomaly_list = [] ∧
    (reset_algorithm3 s3).anomaly_ratio = 0 ∧
    (reset_algorithm3 s3).anomaly = 0 ∧
    (reset_algorithm3 s3).model_avg = 0 ∧
    (reset_algorithm3 s3).model_std_dev = 0 ∧
    (reset_algorithm3 s3).u_thresh = s3.u_thresh ∧
    (reset_algorithm3 s3).l_thresh = s3.l_thresh ∧
    (reset_algorithmZ sZ).model_data = [] ∧
    (reset_algorithmZ sZ).anomaly_list = [] ∧
    (reset_algorithmZ sZ).anomaly_ratio = 0 ∧
    (reset_algorithmZ sZ).anomaly = 0 ∧
    (reset_algorithmZ sZ).model_avg = 0 ∧
    (reset_algorithmZ sZ).model_std_dev = 0 ∧
    (reset_algorithmZ sZ).z_score_thresh = sZ.z_score_thresh :=
  ⟨rfl, rfl, rfl, rfl, rfl, rfl, rfl, rfl, rfl, rfl, rfl, rfl, rfl, rfl, rfl⟩

/-! ### FIFO window lemmas (C5, C6) -/

theorem lastN_of_le (n : ℕ) (l : List ℚ) (h : l.length ≤ n) : lastN n l = l := by
  unfold lastN
  rw [Nat.sub_eq_zero_of_le h, List.drop_zero]

theorem lastN_length_le (n : ℕ) (l : List ℚ) : (lastN n l).length ≤ n := by
  unfold lastN
  rw [List.length_drop]
  omega

theorem lastN_snoc_full (n : ℕ) (l : List ℚ) (v : ℚ)
    (h : l.length = n) (h1 : 1 ≤ l.length) :
    lastN n (l ++ [v]) = l.tail ++ [v] := by
  unfold lastN
  rw [List.length_append]
  rw [show l.length + [v].length - n = 1 by simp; omega]
  rw [List.drop_append_eq_append_drop]
  rw [show 1 - l.length = 0 by omega]
  rw [List.drop_zero, List.drop_one]

theorem lastN_lastN_append (n : ℕ) (l m : List ℚ) :
    lastN n (lastN n l ++ m) = lastN n (l ++ m) := by
  unfold lastN
  rw [List.length_append, List.length_drop, List.length_append,
      List.drop_append_eq_append_drop, List.drop_append_eq_append_drop,
      List.drop_drop, List.length_drop]
  congr 1
  · congr 1
    omega
  · congr 1
    omega

theorem check3_frame (sq : ℚ → ℚ) (s : State3) (v limit : ℚ) :
    (check_if_anomaly3 sq s v limit).model_size = s.model_size ∧
    (check_if_anomaly3 sq s v limit).anomaly_list = s.anomaly_list ∧
    (check_if_anomaly3 sq s v limit).anomaly_ratio = s.anomaly_ratio ∧
    (check_if_anomaly3 sq s v limit).anomaly_list_size = s.anomaly_list_size := by
  unfold check_if_anomaly3
  dsimp only
  repeat' split
  all_goals exact ⟨rfl, rfl, rfl, rfl⟩

theorem checkZ_frame (sq : ℚ → ℚ) (s : StateZ) (v : ℚ) :
    (check_if_anomalyZ sq s v).model_size = s.model_size ∧
    (check_if_anomalyZ sq s v).anomaly_list = s.anomaly_list ∧
    (check_if_anomalyZ sq s v).anomaly_ratio = s.anomaly_ratio ∧
    (check_if_anomalyZ sq s v).anomaly_list_size = s.anomaly_list_size ∧
    (check_if_anomalyZ sq s v).z_score_thresh = s.z_score_thresh := by
  unfold check_if_anomalyZ
  dsimp only
  repeat' split
  all_goals exact ⟨rfl, rfl, rfl, rfl, rfl⟩

theorem check3_window (sq : ℚ → ℚ) (limit : ℚ) (s : State3) (v : ℚ)
    (h : s.model_data.length ≤ s.model_size) :
    (check_if_anomaly3 sq s v limit).model_data
      = lastN s.model_size
          (s.model_data ++ (if accepts3 sq limit s v then [v] else [])) := by
  by_cases h1 : s.model_data.length = s.model_size
  · by_cases h2 : 2 ≤ s.model_data.length
    · rw [check3_complete sq s v limit h1 h2]
      unfold accepts3
      rw [if_pos h1]
      rw [if_neg (by omega : ¬ s.model_data.length < 2)]
      dsimp only
      by_cases hc : sq (svarQ s.model_data) < limit ∧ 0 < limit
      · simp only [if_pos hc]
        by_cases hb : meanQ s.model_data - s.thresh_std_dev_limit ≤ v ∧
            v ≤ meanQ s.model_data + s.thresh_std_dev_limit
        · rw [if_pos hb, if_pos (by simpa using hb)]
          exact (lastN_snoc_full _ _ _ h1 (by omega)).symm
        · rw [if_neg hb, if_neg (by simpa using hb)]
          rw [List.append_nil, lastN_of_le _ _ (le_of_eq h1)]
      · simp only [if_neg hc]
        by_cases hb : meanQ s.model_data - 3 * sq (svarQ s.model_data) ≤ v ∧
            v ≤ meanQ s.model_data + 3 * sq (svarQ s.model_data)
        · rw [if_pos hb, if_pos (by simpa using hb)]
          exact (lastN_snoc_full _ _ _ h1 (by omega)).symm
        · rw [if_neg hb, if_neg (by simpa using hb)]
          rw [List.append_nil, lastN_of_le _ _ (le_of_eq h1)]
    · have ha : accepts3 sq limit s v = false := by
        unfold accepts3
        rw [if_pos h1, if_pos (by omega : s.model_data.length < 2)]
      have hw : (check_if_anomaly3 sq s v limit).model_data = s.model_data := by
        unfold check_if_anomaly3
        rw [if_pos h1]
        by_cases h0 : s.model_data.length = 0
        · rw [if_pos h0]
        · rw [if_neg h0]
          dsimp only
          rw [if_pos (by omega : s.model_data.length < 2)]
      rw [hw, ha]
      simp only [Bool.false_eq_true, if_false, List.append_nil]
      exact (lastN_of_le _ _ (le_of_eq h1)).symm
  · rw [check3_build sq s v limit h1]
    have ha : accepts3 sq limit s v = true := by
      unfold accepts3
      rw [if_neg h1]
    rw [ha]
    simp only [if_true]
    rw [lastN_of_le]
    simp only [List.length_append, List.length_singleton]
    omega

theorem checkZ_window (sq : ℚ → ℚ) (s : StateZ) (v : ℚ)
    (h : s.model_data.length ≤ s.model_size) :
    (check_if_anomalyZ sq s v).model_data
      = lastN s.model_size
          (s.model_data ++ (if acceptsZ sq s v then [v] else [])) := by
  by_cases h1 : s.model_data.length = s.model_size
  · by_cases h2 : 2 ≤ s.model_data.length
    · rw [checkZ_complete sq s v h1 h2]
      dsimp only
      by_cases hb : s.z_score_thresh <
          |round3 ((|v| - round3 |meanQ s.model_data|) /
            if |sq (svarQ s.model_data)| = 0 then 1 / 1000
            else |sq (svarQ s.model_data)|)|
      · have ha : acceptsZ sq s v = false := by
          unfold acceptsZ
          rw [if_pos h1, if_neg (by omega : ¬ s.model_data.length < 2)]
          dsimp only
          rw [decide_eq_false_iff_not]
          exact not_not_intro hb
        rw [if_pos hb, ha]
        simp only [Bool.false_eq_true, if_false, List.append_nil]
        exact (lastN_of_le _ _ (le_of_eq h1)).symm
      · have ha : acceptsZ sq s v = true := by
          unfold acceptsZ
          rw [if_pos h1, if_neg (by omega : ¬ s.model_data.length < 2)]
          dsimp only
          rw [decide_eq_true_eq]
          exact hb
        rw [if_neg hb, ha]
        simp only [if_true]
        exact (lastN_snoc_full _ _ _ h1 (by omega)).symm
    · have ha : acceptsZ sq s v = false := by
        unfold acceptsZ
        rw [if_pos h1, if_pos (by omega : s.model_data.length < 2)]
      have hw : (check_if_anomalyZ sq s v).model_data = s.model_data := by
        unfold check_if_anomalyZ
        rw [if_pos h1]
        by_cases h0 : s.model_data.length = 0
        · rw [if_pos h0]
        · rw [if_neg h0]
          dsimp only
          rw [if_pos (by omega : s.model_data.length < 2)]
      rw [hw, ha]
      simp only [Bool.false_eq_true, if_false, List.append_nil]
      exact (lastN_of_le _ _ (le_of_eq h1)).symm
  · rw [checkZ_build sq s v h1]
    have ha : acceptsZ sq s v = true := by
      unfold acceptsZ
      rw [if_neg h1]
    rw [ha]
    simp only [if_true]
    rw [lastN_of_le]
    simp only [List.length_append, List.length_singleton]
    omega

theorem run3_window (sq : ℚ → ℚ) (limit : ℚ) (vs : List ℚ) : ∀ (s : State3),
    s.model_data.length ≤ s.model_size →
    (run3 sq limit s vs).model_data
        = lastN s.model_size (s.model_data ++ accepted3 sq limit s vs) ∧
    (run3 sq limit s vs).model_size = s.model_size := by
  induction vs with
  | nil =>
    intro s h
    refine ⟨?_, rfl⟩
    rw [run3, accepted3, List.append_nil, lastN_of_le _ _ h]
  | cons v vs ih =>
    intro s h
    have hfr := (check3_frame sq s v limit).1
    have hwin := check3_window sq limit s v h
    have hle : (check_if_anomaly3 sq s v limit).model_data.length
        ≤ (check_if_anomaly3 sq s v limit).model_size := by
      rw [hwin, hfr]
      exact lastN_length_le _ _
    obtain ⟨ih1, ih2⟩ := ih (check_if_anomaly3 sq s v limit) hle
    constructor
    · rw [run3, accepted3, ih1, hfr, hwin, lastN_lastN_append, List.append_assoc]
    · rw [run3, ih2, hfr]

theorem runZ_window (sq : ℚ → ℚ) (vs : List ℚ) : ∀ (s : StateZ),
    s.model_data.length ≤ s.model_size →
    (runZ sq s vs).model_data
        = lastN s.model_size (s.model_data ++ acceptedZ sq s vs) ∧
    (runZ sq s vs).model_size = s.model_size := by
  induction vs with
  | nil =>
    intro s h
    refine ⟨?_, rfl⟩
    rw [runZ, acceptedZ, List.append_nil, lastN_of_le _ _ h]
  | cons v vs ih =>
    intro s h
    have hfr := (checkZ_frame sq s v).1
    have hwin := checkZ_window sq s v h
    have hle : (check_if_anomalyZ sq s v).model_data.length
        ≤ (check_if_anomalyZ sq s v).model_size := by
      rw [hwin, hfr]
      exact lastN_length_le _ _
    obtain ⟨ih1, ih2⟩ := ih (check_if_anomalyZ sq s v) hle
    constructor
    · rw [runZ, acceptedZ, ih1, hfr, hwin, lastN_lastN_append, List.append_assoc]
    · rw [runZ, ih2, hfr]

/-! ### C5 -/

/-- C5: for every sequence of `check_if_anomaly` calls on a fresh detector
with `model_size = N` (both variants), `len(model_data) ≤ N` always holds and
the window equals the last `N` accepted (non-anomalous) values — in
particular, once complete it stays at length `N`, each accepted value evicts
exactly the oldest entry (strict FIFO), and after `k` accepted values the
oldest retained value is the `(k−N+1)`-th accepted value. -/
theorem c5_fifo_window (sq : ℚ → ℚ) (limit thresh : ℚ) (N M NZ MZ : ℕ)
    (vs ws : List ℚ) :
    ((run3 sq limit (init3 N M thresh) vs).model_data.length ≤ N ∧
     (run3 sq limit (init3 N M thresh) vs).model_data
       = (accepted3 sq limit (init3 N M thresh) vs).drop
           ((accepted3 sq limit (init3 N M thresh) vs).length - N)) ∧
    ((runZ sq (initZ NZ MZ) ws).model_data.length ≤ NZ ∧
     (runZ sq (initZ NZ MZ) ws).model_data
       = (acceptedZ sq (initZ NZ MZ) ws).drop
           ((acceptedZ sq (initZ NZ MZ) ws).length - NZ)) := by
  have h3 := run3_window sq limit vs (init3 N M thresh) (by simp [init3])
  have hZ := runZ_window sq ws (initZ NZ MZ) (by simp [initZ])
  constructor
  · constructor
    · rw [h3.1]
      exact lastN_length_le _ _
    · rw [h3.1]
      rfl
  · constructor
    · rw [hZ.1]
      exact lastN_length_le _ _
    · rw [hZ.1]
      rfl

/-! ### C6 -/

theorem run3_build (sq : ℚ → ℚ) (limit : ℚ) (vs : List ℚ) : ∀ (s : State3),
    s.model_data.length + vs.length ≤ s.model_size →
    run3 sq limit s vs = { s with model_data := s.model_data ++ vs } := by
  induction vs with
  | nil =>
    intro s h
    rw [run3, List.append_nil]
  | cons v vs ih =>
    intro s h
    rw [run3, check3_build sq s v limit
      (by simp only [List.length_cons] at h; omega)]
    rw [ih _ (by simp only [List.length_append, List.length_singleton,
      List.length_cons, List.length_nil] at h ⊢; omega)]
    simp [List.append_assoc]

/-- C6: starting from an empty 3-std-dev model with `model_size = N > 1`,
each of the first `N` calls appends its value unconditionally, the anomaly
flag stays at its initial value `0`, and `is_model_complete` returns `True`
exactly when `N` values have been received, not before. -/
theorem c6_warmup (sq : ℚ → ℚ) (limit thresh : ℚ) (N M : ℕ) (vs : List ℚ)
    (hN : 1 < N) (hlen : vs.length ≤ N) :
    (run3 sq limit (init3 N M thresh) vs).model_data = vs ∧
    (run3 sq limit (init3 N M thresh) vs).anomaly = 0 ∧
    (is_model_complete3 (run3 sq limit (init3 N M thresh) vs) = true ↔
      vs.length = N) := by
  have h := run3_build sq limit vs (init3 N M thresh) (by simp [init3]; omega)
  rw [h]
  refine ⟨by simp [init3], rfl, ?_⟩
  simp [is_model_complete3, init3]

/-- C6 witness: `N = 3` and three warm-up values: the window is exactly the
three values, the flag is still `0`, and the model is complete. -/
theorem c6_warmup_witness :
    (run3 sqZero 0 (init3 3 2 1) [10, 20, 30]).model_data = [10, 20, 30] ∧
    (run3 sqZero 0 (init3 3 2 1) [10, 20, 30]).anomaly = 0 ∧
    is_model_complete3 (run3 sqZero 0 (init3 3 2 1) [10, 20, 30]) = true := by
  have h := c6_warmup sqZero 0 1 3 2 [10, 20, 30] (by norm_num) (by norm_num)
  exact ⟨h.1, h.2.1, h.2.2.mpr rfl⟩

/-! ### C7 -/

theorem setZ_frame (s : StateZ) (t : ℚ) :
    (set_z_score_thresh s t).model_data = s.model_data ∧
    (set_z_score_thresh s t).model_size = s.model_size ∧
    (set_z_score_thresh s t).anomaly_list = s.anomaly_list ∧
    (set_z_score_thresh s t).anomaly_ratio = s.anomaly_ratio ∧
    (set_z_score_thresh s t).anomaly_list_size = s.anomaly_list_size ∧
    (set_z_score_thresh s t).anomaly = s.anomaly := by
  unfold set_z_score_thresh
  split
  all_goals exact ⟨rfl, rfl, rfl, rfl, rfl, rfl⟩

theorem calc_ratio3_inv (s : State3)
    (h : s.anomaly_list.length < s.anomaly_list_size → s.anomaly_ratio = 0) :
    ((calculate_anomaly_ratio3 s).anomaly_list.length <
        (calculate_anomaly_ratio3 s).anomaly_list_size →
      (calculate_anomaly_ratio3 s).anomaly_ratio = 0) ∧
    (calculate_anomaly_ratio3 s).anomaly_list_size = s.anomaly_list_size := by
  unfold calculate_anomaly_ratio3
  by_cases h1 : s.model_data.length = s.model_size
  · rw [if_pos h1]
    by_cases h2 : s.anomaly_list.length < s.anomaly_list_size
    · rw [if_pos h2]
      refine ⟨?_, rfl⟩
      intro hlt
      simp only [List.length_append, List.length_singleton] at hlt
      exact h (by omega)
    · rw [if_neg h2]
      by_cases h3 : s.anomaly_list.length = 0
      · rw [if_pos h3]
        exact ⟨h, rfl⟩
      · rw [if_neg h3]
        refine ⟨?_, rfl⟩
        intro hlt
        exfalso
        simp only [List.length_append, List.length_singleton,
          List.length_tail] at hlt
        omega
  · rw [if_neg h1]
    exact ⟨h, rfl⟩

theorem calc_ratioZ_inv (s : StateZ)
    (h : s.anomaly_list.length < s.anomaly_list_size → s.anomaly_ratio = 0) :
    ((calculate_anomaly_ratioZ s).anomaly_list.length <
        (calculate_anomaly_ratioZ s).anomaly_list_size →
      (calculate_anomaly_ratioZ s).anomaly_ratio = 0) ∧
    (calculate_anomaly_ratioZ s).anomaly_list_size = s.anomaly_list_size := by
  unfold calculate_anomaly_ratioZ
  by_cases h1 : s.model_data.length = s.model_size
  · rw [if_pos h1]
    by_cases h2 : s.anomaly_list.length < s.anomaly_list_size
    · rw [if_pos h2]
      refine ⟨?_, rfl⟩
      intro hlt
      simp only [List.length_append, List.length_singleton] at hlt
      exact h (by omega)
    · rw [if_neg h2]
      by_cases h3 : s.anomaly_list.length = 0
      · rw [if_pos h3]
        exact ⟨h, rfl⟩
      · rw [if_neg h3]
        refine ⟨?_, rfl⟩
        intro hlt
        exfalso
        simp only [List.length_append, List.length_singleton,
          List.length_tail] at hlt
        omega
  · rw [if_neg h1]
    exact ⟨h, rfl⟩

theorem proc3_ratio_inv (sq : ℚ → ℚ) (limit : ℚ) (s : State3) (v : ℚ)
    (h : s.anomaly_list.length < s.anomaly_list_size → s.anomaly_ratio = 0) :
    ((proc_message3 sq limit s v).anomaly_list.length <
        (proc_message3 sq limit s v).anomaly_list_size →
      (proc_message3 sq limit s v).anomaly_ratio = 0) ∧
    (proc_message3 sq limit s v).anomaly_list_size = s.anomaly_list_size := by
  unfold proc_message3
  have hfr := check3_frame sq s v limit
  have h2 : (check_if_anomaly3 sq s v limit).anomaly_list.length <
      (check_if_anomaly3 sq s v limit).anomaly_list_size →
      (check_if_anomaly3 sq s v limit).anomaly_ratio = 0 := by
    rw [hfr.2.1, hfr.2.2.1, hfr.2.2.2]
    exact h
  have hc := calc_ratio3_inv (check_if_anomaly3 sq s v limit) h2
  exact ⟨hc.1, by rw [hc.2, hfr.2.2.2]⟩

theorem procZ_ratio_inv (sq : ℚ → ℚ) (t : ℚ) (s : StateZ) (v : ℚ)
    (h : s.anomaly_list.length < s.anomaly_list_size → s.anomaly_ratio = 0) :
    ((proc_messageZ sq t s v).anomaly_list.length <
        (proc_messageZ sq t s v).anomaly_list_size →
      (proc_messageZ sq t s v).anomaly_ratio = 0) ∧
    (proc_messageZ sq t s v).anomaly_list_size = s.anomaly_list_size := by
  unfold proc_messageZ
  have hst := setZ_frame s t
  have hfr := checkZ_frame sq (set_z_score_thresh s t) v
  have h2 : (check_if_anomalyZ sq (set_z_score_thresh s t) v).anomaly_list.length <
      (check_if_anomalyZ sq (set_z_score_thresh s t) v).anomaly_list_size →
      (check_if_anomalyZ sq (set_z_score_thresh s t) v).anomaly_ratio = 0 := by
    rw [hfr.2.1, hfr.2.2.1, hfr.2.2.2.1, hst.2.2.1, hst.2.2.2.1, hst.2.2.2.2.1]
    exact h
  have hc := calc_ratioZ_inv (check_if_anomalyZ sq (set_z_score_thresh s t) v) h2
  exact ⟨hc.1, by rw [hc.2, hfr.2.2.2.1, hst.2.2.2.2.1]⟩

theorem run_proc3_ratio (sq : ℚ → ℚ) (limit : ℚ) (vs : List ℚ) :
    ∀ (s : State3),
    (s.anomaly_list.length < s.anomaly_list_size → s.anomaly_ratio = 0) →
    ((run_proc3 sq limit s vs).anomaly_list.length < s.anomaly_list_size →
      (run_proc3 sq limit s vs).anomaly_ratio = 0) := by
  induction vs with
  | nil =>
    intro s h
    exact h
  | cons v vs ih =>
    intro s h
    rw [run_proc3]
    have hstep := proc3_ratio_inv sq limit s v h
    have htail := ih (proc_message3 sq limit s v) hstep.1
    intro hlt
    exact htail (by rw [hstep.2]; exact hlt)

theorem run_procZ_ratio (sq : ℚ → ℚ) (t : ℚ) (vs : List ℚ) :
    ∀ (s : StateZ),
    (s.anomaly_list.length < s.anomaly_list_size → s.anomaly_ratio = 0) →
    ((run_procZ sq t s vs).anomaly_list.length < s.anomaly_list_size →
      (run_procZ sq t s vs).anomaly_ratio = 0) := by
  induction vs with
  | nil =>
    intro s h
    exact h
  | cons v vs ih =>
    intro s h
    rw [run_procZ]
    have hstep := procZ_ratio_inv sq t s v h
    have htail := ih (proc_messageZ sq t s v) hstep.1
    intro hlt
    exact htail (by rw [hstep.2]; exact hlt)

/-- C7: `calculate_anomaly_ratio` (both variants) is a no-op while the model
is incomplete; with a complete model it appends the current flag without
touching `anomaly_ratio` while the flag list is short, and only when the
list is already full does it evict the oldest flag, append the newest and
set `anomaly_ratio = round(sum/anomaly_list_size, 3)`; consequently, over any
run of the evaluation cycle from a fresh detector, `anomaly_ratio` is still
its initial `0` whenever fewer than `anomaly_list_size` decisions have been
recorded, regardless of how many raw samples preceded completeness. -/
theorem c7_ratio_warmup :
    (∀ s : State3,
      (s.model_data.length ≠ s.model_size → calculate_anomaly_ratio3 s = s) ∧
      (s.model_data.length = s.model_size →
        s.anomaly_list.length < s.anomaly_list_size →
        (calculate_anomaly_ratio3 s).anomaly_list
            = s.anomaly_list ++ [s.anomaly] ∧
        (calculate_anomaly_ratio3 s).anomaly_ratio = s.anomaly_ratio) ∧
      (s.model_data.length = s.model_size →
        s.anomaly_list.length = s.anomaly_list_size →
        1 ≤ s.anomaly_list_size →
        (calculate_anomaly_ratio3 s).anomaly_list
            = s.anomaly_list.tail ++ [s.anomaly] ∧
        (calculate_anomaly_ratio3 s).anomaly_ratio
            = round3 ((((s.anomaly_list.tail ++ [s.anomaly]).sum : ℤ) : ℚ)
                / (s.anomaly_list_size : ℚ)))) ∧
    (∀ s : StateZ,
      (s.model_data.length ≠ s.model_size → calculate_anomaly_ratioZ s = s) ∧
      (s.model_data.length = s.model_size →
        s.anomaly_list.length < s.anomaly_list_size →
        (calculate_anomaly_ratioZ s).anomaly_list
            = s.anomaly_list ++ [s.anomaly] ∧
        (calculate_anomaly_ratioZ s).anomaly_ratio = s.anomaly_ratio) ∧
      (s.model_data.length = s.model_size →
        s.anomaly_list.length = s.anomaly_list_size →
        1 ≤ s.anomaly_list_size →
        (calculate_anomaly_ratioZ s).anomaly_list
            = s.anomaly_list.tail ++ [s.anomaly] ∧
        (calculate_anomaly_ratioZ s).anomaly_ratio
            = round3 ((((s.anomaly_list.tail ++ [s.anomaly]).sum : ℤ) : ℚ)
                / (s.anomaly_list_size : ℚ)))) ∧
    (∀ (sq : ℚ → ℚ) (limit thresh : ℚ) (N M : ℕ) (vs : List ℚ),
      (run_proc3 sq limit (init3 N M thresh) vs).anomaly_list.length < M →
      (run_proc3 sq limit (init3 N M thresh) vs).anomaly_ratio = 0) ∧
    (∀ (sq : ℚ → ℚ) (t : ℚ) (N M : ℕ) (vs : List ℚ),
      (run_procZ sq t (initZ N M) vs).anomaly_list.length < M →
      (run_procZ sq t (initZ N M) vs).anomaly_ratio = 0) := by
  refine ⟨fun s => ⟨?_, ?_, ?_⟩, fun s => ⟨?_, ?_, ?_⟩, ?_, ?_⟩
  · intro h
    unfold calculate_anomaly_ratio3
    rw [if_neg h]
  · intro h1 h2
    unfold calculate_anomaly_ratio3
    rw [if_pos h1, if_pos h2]
    exact ⟨rfl, rfl⟩
  · intro h1 h2 h3
    unfold calculate_anomaly_ratio3
    rw [if_pos h1, if_neg (by omega), if_neg (by omega)]
    exact ⟨rfl, rfl⟩
  · intro h
    unfold calculate_anomaly_ratioZ
    rw [if_neg h]
  · intro h1 h2
    unfold calculate_anomaly_ratioZ
    rw [if_pos h1, if_pos h2]
    exact ⟨rfl, rfl⟩
  · intro h1 h2 h3
    unfold calculate_anomaly_ratioZ
    rw [if_pos h1, if_neg (by omega), if_neg (by omega)]
    exact ⟨rfl, rfl⟩
  · intro sq limit thresh N M vs
    exact run_proc3_ratio sq limit vs (init3 N M thresh) (fun _ => rfl)
  · intro sq t N M vs
    exact run_procZ_ratio sq t vs (initZ N M) (fun _ => rfl)

/-- C7 witness: on a fresh incomplete detector the ratio call is a no-op,
and after two vibration messages on a fresh detector with
`anomaly_list_size = 2` only one decision is recorded, so the ratio is
still `0`. -/
theorem c7_ratio_warmup_witness :
    calculate_anomaly_ratio3 (init3 3 2 1) = init3 3 2 1 ∧
    (run_procZ sqZero 2 (initZ 2 2) [5, 5]).anomaly_ratio = 0 := by
  refine ⟨(c7_ratio_warmup.1 (init3 3 2 1)).1 (by norm_num [init3]), ?_⟩
  exact c7_ratio_warmup.2.2.2 sqZero 2 2 2 [5, 5]
    (by norm_num [run_procZ, proc_messageZ, check_if_anomalyZ,
      calculate_anomaly_ratioZ, set_z_score_thresh, initZ, meanQ, svarQ,
      round3, sqZero])

end IIoTMQTT
